import Mathlib

/-!
Shallow embedding of `ci-status.py` (BluezTestBot/action-ci-status).

The script defines a check-task hierarchy (`StatusBase` with concrete
`RepoSyncStatus` and `GithubRepoStatus`), an aggregation function
`collect_results`, and an orchestration entry point `ci_status`.  External
collaborators (gitpython's `git.Repo.clone_from`, `shutil.rmtree`,
PyGithub's `Github(...).get_repo`, `get_pulls`, `get_issues`) are modelled
by explicit outcome values; a Python exception raised by a collaborator is
modelled with `Except.error`, and Python `None` with `Option.none`.
Each definition's doc comment cites the source lines it embeds.
-/

/-- Verdict enum, ci-status.py lines 177-183. -/
inductive Verdict where
  | PENDING
  | PASS
  | FAIL
  | ERROR
  | SKIP
  | WARNING
  deriving DecidableEq, Repr

/-- Python exceptions that the collaborators used by the script can raise:
`git.GitCommandError` from `git.Repo.clone_from`, `OSError` from
`shutil.rmtree`, `KeyError` from `os.environ[...]`, `GithubException` from
the PyGithub calls, and `TypeError` from concatenating `str` and `None`. -/
inductive Exc where
  | gitCommandError (msg : String)
  | osError (msg : String)
  | keyError (key : String)
  | githubException (msg : String)
  | typeError (msg : String)
  deriving DecidableEq, Repr

/-- StatusBase class attributes, lines 185-189: `result` and `verdict` are
initialised to Python `None`, modelled as `Option`. -/
structure StatusBase where
  result : Option String
  verdict : Option Verdict
  deriving DecidableEq, Repr

/-- StatusBase.add_result, lines 191-195.  Python `if not self.result:` is
true when `result` is `None` or the empty string, so those cases assign the
line directly; otherwise `'\n' + result` is appended. -/
def add_result (cur : Option String) (line : String) : Option String :=
  match cur with
  | none => some line
  | some s => if s = "" then some line else some (s ++ "\n" ++ line)

/-- StatusBase.get_result, lines 197-198: returns the accumulated text. -/
def StatusBase.get_result (t : StatusBase) : Option String :=
  t.result

/-- The only attribute of a `git.Repo` object the script reads is
`head.commit.hexsha` (lines 251-252). -/
structure Repo where
  headCommitHexsha : String
  deriving DecidableEq, Repr

/-- Collaborator behaviour for one `git_clone_repo` call: whether
`os.path.exists(to_path)` holds, the outcome of `shutil.rmtree(to_path)` if
it is invoked, and the outcome of `git.Repo.clone_from(...)` if it is
invoked.  `clone_from` returns a `git.Repo` object or raises; it never
returns `None`. -/
instance {ε α : Type} [DecidableEq ε] [DecidableEq α] : DecidableEq (Except ε α) :=
  fun a b =>
    match a, b with
    | Except.error e, Except.error f =>
      if h : e = f then isTrue (by rw [h]) else isFalse (by intro hc; cases hc; exact h rfl)
    | Except.ok x, Except.ok y =>
      if h : x = y then isTrue (by rw [h]) else isFalse (by intro hc; cases hc; exact h rfl)
    | Except.error _, Except.ok _ => isFalse (by intro hc; cases hc)
    | Except.ok _, Except.error _ => isFalse (by intro hc; cases hc)

structure CloneEnv where
  pathExists : Bool
  rmtreeOutcome : Except Exc Unit
  cloneFromOutcome : Except Exc Repo
  deriving DecidableEq, Repr

/-- git_clone_repo, lines 147-159.  If the path exists and `delete_exist`
is set the existing tree is removed before cloning; if the path exists and
`delete_exist` is not set the function returns `None`; otherwise it returns
the result of `git.Repo.clone_from`.  Exceptions raised by `shutil.rmtree`
or `git.Repo.clone_from` propagate to the caller. -/
def git_clone_repo (env : CloneEnv) (delete_exist : Bool) : Except Exc (Option Repo) :=
  if env.pathExists then
    if delete_exist then
      match env.rmtreeOutcome with
      | Except.error e => Except.error e
      | Except.ok _ =>
        match env.cloneFromOutcome with
        | Except.error e => Except.error e
        | Except.ok r => Except.ok (some r)
    else
      Except.ok none
  else
    match env.cloneFromOutcome with
    | Except.error e => Except.error e
    | Except.ok r => Except.ok (some r)

/-- RepoSyncStatus object state: the StatusBase attributes plus the fields
assigned in `__init__`, lines 211-217. -/
structure RepoSyncStatus extends StatusBase where
  name : String
  src_repo : String
  dest_repo : String
  src_branch : String
  dest_branch : String
  base_dir : String
  deriving DecidableEq, Repr

/-- RepoSyncStatus.__init__, lines 211-223.  The declared parameter order is
`(name, src_repo, src_branch, dest_repo, dest_branch)`; `BASE_DIR` is the
module global joined with `name` via `os.path.join`.  The constructor
appends the header line `"Repo Sync: %s" % name` and sets
`verdict = Verdict.PASS` (comment in source: "Just to print out the
result"). -/
def RepoSyncStatus.init (BASE_DIR name src_repo src_branch dest_repo dest_branch : String) :
    RepoSyncStatus :=
  { result := add_result none ("Repo Sync: " ++ name)
    verdict := some Verdict.PASS
    name := name
    src_repo := src_repo
    dest_repo := dest_repo
    src_branch := src_branch
    dest_branch := dest_branch
    base_dir := BASE_DIR ++ "/" ++ name }

/-- RepoSyncStatus.check, lines 225-266.  `git_clone_repo` is called with the
default `delete_exist=True`, first for the src repo, then for the dest repo.
A falsy (`None`) return takes the "Clone ... repo failed" branch; an
exception raised inside `git_clone_repo` propagates out of `check` (the
mutated task object survives in the caller, so the final task state is
returned alongside the exception).  On two successful clones both HEAD SHAs
are appended, then either the FAIL branch ("SHA mismatch") or the success
branch ("Result: Pass", which assigns no verdict) runs. -/
def RepoSyncStatus.check (t : RepoSyncStatus) (srcEnv destEnv : CloneEnv) :
    Except Exc Int × RepoSyncStatus :=
  match git_clone_repo srcEnv true with
  | Except.error e => (Except.error e, t)
  | Except.ok none =>
      (Except.ok (-1),
       { t with result := add_result t.result "   Results: Failed (Clone src repo failed)"
                verdict := some Verdict.ERROR })
  | Except.ok (some repo_src) =>
    match git_clone_repo destEnv true with
    | Except.error e => (Except.error e, t)
    | Except.ok none =>
        (Except.ok (-1),
         { t with result := add_result t.result "   Results: Fail (Clone dest repo failed)"
                  verdict := some Verdict.ERROR })
    | Except.ok (some repo_dest) =>
      let src_head_sha := repo_src.headCommitHexsha
      let dest_head_sha := repo_dest.headCommitHexsha
      let t1 := { t with result := add_result t.result ("   SRC HEAD:  " ++ src_head_sha) }
      let t2 := { t1 with result := add_result t1.result ("   DEST HEAD: " ++ dest_head_sha) }
      if src_head_sha ≠ dest_head_sha then
        (Except.ok (-1),
         { t2 with result := add_result t2.result "   Result: Fail (SHA mismatch)"
                   verdict := some Verdict.FAIL })
      else
        (Except.ok 0, { t2 with result := add_result t2.result "   Result: Pass" })

/-- One entry of the issue listing returned by PyGithub's `get_issues`: the
script only reads the truthiness of `issue.pull_request` (line 172). -/
structure Issue where
  pull_request : Bool
  deriving DecidableEq, Repr

/-- The attributes of a PyGithub repository object the script reads:
`get_pulls(state='open').totalCount` and `get_issues(state='open')`. -/
structure GithubRepo where
  openPullsTotalCount : Nat
  openIssues : List Issue
  deriving DecidableEq, Repr

/-- github_init, lines 161-164: `os.environ['GITHUB_TOKEN']` raises
`KeyError` when the variable is absent; otherwise the result of
`Github(token).get_repo(repo)` is returned.  `get_repo` returns a
repository object or raises `GithubException`; it never returns `None`. -/
def github_init (tokenPresent : Bool) (getRepoOutcome : Except Exc GithubRepo) :
    Except Exc (Option GithubRepo) :=
  if tokenPresent then
    match getRepoOutcome with
    | Except.error e => Except.error e
    | Except.ok r => Except.ok (some r)
  else
    Except.error (Exc.keyError "GITHUB_TOKEN")

/-- github_get_issues_only, lines 166-175: keeps exactly the issues whose
`pull_request` attribute is falsy. -/
def github_get_issues_only (repo : GithubRepo) : List Issue :=
  repo.openIssues.filter (fun issue => !issue.pull_request)

/-- GithubRepoStatus object state, lines 269-279. -/
structure GithubRepoStatus extends StatusBase where
  repo : String
  deriving DecidableEq, Repr

/-- GithubRepoStatus.__init__, lines 274-279: appends the header line
`"Github Repo: %s" % repo` and sets `verdict = Verdict.WARNING`. -/
def GithubRepoStatus.init (repo : String) : GithubRepoStatus :=
  { result := add_result none ("Github Repo: " ++ repo)
    verdict := some Verdict.WARNING
    repo := repo }

/-- GithubRepoStatus.check, lines 281-304.  An exception raised by
`github_init` propagates out of `check`; the `if not github_repo:` branch
handles a `None` handle ("Failed to init github repo", `verdict = ERROR`).
On success the open-PR total and the length of `github_get_issues_only` are
appended and the verdict set in `__init__` is left untouched. -/
def GithubRepoStatus.check (t : GithubRepoStatus) (tokenPresent : Bool)
    (getRepoOutcome : Except Exc GithubRepo) : Except Exc Int × GithubRepoStatus :=
  match github_init tokenPresent getRepoOutcome with
  | Except.error e => (Except.error e, t)
  | Except.ok none =>
      (Except.ok (-1),
       { t with result := add_result t.result "   Result: Fail (Failed to init github repo)"
                verdict := some Verdict.ERROR })
  | Except.ok (some github_repo) =>
      let prLine := "   PRs:    " ++ toString github_repo.openPullsTotalCount
      let issueLine := "   Issues: " ++ toString (github_get_issues_only github_repo).length
      let t1 := { t with result := add_result t.result prLine }
      let t2 := { t1 with result := add_result t1.result issueLine }
      (Except.ok 0, t2)

/-- compare_repo_branch, lines 306-314 (construction step): it builds
`RepoSyncStatus("test", src_repo, dest_repo, src_branch, dest_branch)`,
passing its arguments positionally to the constructor parameters
`(name, src_repo, src_branch, dest_repo, dest_branch)` — so the caller's
`dest_repo` lands in the `src_branch` slot and the caller's `src_branch`
lands in the `dest_repo` slot.  In Python `src_branch` and `dest_branch`
default to `'master'`. -/
def compare_repo_branch_task (BASE_DIR src_repo dest_repo src_branch dest_branch : String) :
    RepoSyncStatus :=
  RepoSyncStatus.init BASE_DIR "test" src_repo dest_repo src_branch dest_branch

/-- Loop of collect_results, lines 348-355: `results` starts as `""`; every
task whose `verdict != Verdict.PASS` contributes `'\n' + task.get_result()`.
If `get_result()` returns `None` the concatenation raises `TypeError`,
modelled by `none`. -/
def collect_results_go (results : String) : List StatusBase → Option String
  | [] => some results
  | task :: rest =>
    if task.verdict ≠ some Verdict.PASS then
      match task.get_result with
      | some r => collect_results_go (results ++ "\n" ++ r) rest
      | none => none
    else
      collect_results_go results rest

/-- collect_results, lines 348-355. -/
def collect_results (task_list : List StatusBase) : Option String :=
  collect_results_go "" task_list

/-- One entry of REPO_SYNC_MAP, lines 29-72. -/
structure SyncItem where
  name : String
  src_repo : String
  src_branch : String
  dest_repo : String
  dest_branch : String
  deriving DecidableEq, Repr

/-- REPO_SYNC_MAP, lines 29-72. -/
def REPO_SYNC_MAP : List SyncItem :=
  [ { name := "bluez"
      src_repo := "https://git.kernel.org/pub/scm/bluetooth/bluez.git"
      src_branch := "master"
      dest_repo := "https://github.com/bluez/bluez"
      dest_branch := "master" },
    { name := "bluetooth-next"
      src_repo := "https://git.kernel.org/pub/scm/linux/kernel/git/bluetooth/bluetooth-next.git"
      src_branch := "master"
      dest_repo := "https://github.com/bluez/bluetooth-next"
      dest_branch := "master" },
    { name := "bluetooth-next:for-upstream"
      src_repo := "https://git.kernel.org/pub/scm/linux/kernel/git/bluetooth/bluetooth-next.git"
      src_branch := "for-upstream"
      dest_repo := "https://github.com/bluez/bluetooth-next"
      dest_branch := "for-upstream" },
    { name := "BluezTestBot:bluez"
      src_repo := "https://github.com/bluez/bluez"
      src_branch := "master"
      dest_repo := "https://github.com/BluezTestBot/bluez"
      dest_branch := "master" },
    { name := "BluezTestBot:bluetooth-next"
      src_repo := "https://github.com/bluez/bluetooth-next"
      src_branch := "master"
      dest_repo := "https://github.com/BluezTestBot/bluetooth-next"
      dest_branch := "master" },
    { name := "BluezTestBot:bluetooth-next:for-upstream"
      src_repo := "https://github.com/bluez/bluetooth-next"
      src_branch := "for-upstream"
      dest_repo := "https://github.com/BluezTestBot/bluetooth-next"
      dest_branch := "for-upstream" } ]

/-- GITHUB_REPO_LIST, lines 22-27. -/
def GITHUB_REPO_LIST : List String :=
  ["bluez/bluez", "bluez/bluetooth-next", "blueztestbot/bluez", "blueztestbot/bluetooth-next"]

/-- Loop of check_repo_sync, lines 317-334: one `RepoSyncStatus` per
REPO_SYNC_MAP entry, constructed with the fields in declared order, then
`check()` is run (its return value is ignored) and the task is appended.
`envs i` supplies the collaborator behaviour for iteration `i`; an
exception raised by `check` propagates and aborts the remaining
iterations. -/
def check_repo_sync_go (BASE_DIR : String) (envs : Nat → CloneEnv × CloneEnv) :
    Nat → List SyncItem → Except Exc (List RepoSyncStatus)
  | _, [] => Except.ok []
  | i, item :: rest =>
    let repo_sync := RepoSyncStatus.init BASE_DIR item.name item.src_repo item.src_branch
      item.dest_repo item.dest_branch
    match repo_sync.check (envs i).1 (envs i).2 with
    | (Except.error e, _) => Except.error e
    | (Except.ok _, t) =>
      match check_repo_sync_go BASE_DIR envs (i + 1) rest with
      | Except.error e => Except.error e
      | Except.ok l => Except.ok (t :: l)

/-- check_repo_sync, lines 317-334. -/
def check_repo_sync (BASE_DIR : String) (envs : Nat → CloneEnv × CloneEnv) :
    Except Exc (List RepoSyncStatus) :=
  check_repo_sync_go BASE_DIR envs 0 REPO_SYNC_MAP

/-- Loop of check_repo_status, lines 336-346: one `GithubRepoStatus` per
GITHUB_REPO_LIST entry; `check()` is run (return value ignored) and the
task appended; an exception propagates. -/
def check_repo_status_go (envs : Nat → Bool × Except Exc GithubRepo) :
    Nat → List String → Except Exc (List GithubRepoStatus)
  | _, [] => Except.ok []
  | i, repo_name :: rest =>
    let check_repo := GithubRepoStatus.init repo_name
    match check_repo.check (envs i).1 (envs i).2 with
    | (Except.error e, _) => Except.error e
    | (Except.ok _, t) =>
      match check_repo_status_go envs (i + 1) rest with
      | Except.error e => Except.error e
      | Except.ok l => Except.ok (t :: l)

/-- check_repo_status, lines 336-346. -/
def check_repo_status (envs : Nat → Bool × Except Exc GithubRepo) :
    Except Exc (List GithubRepoStatus) :=
  check_repo_status_go envs 0 GITHUB_REPO_LIST

/-- Observable outcome of one `ci_status` run: the `messages` string handed
to `compose_and_send` and the Python return value of `ci_status` itself,
which is `None` (the function body has no return statement). -/
structure CiStatusRun where
  messages : String
  retval : Option Int
  deriving DecidableEq, Repr

/-- ci_status, lines 357-379: runs `check_repo_sync` and
`check_repo_status`, composes `messages` from the two fixed section headers
and the two `collect_results` strings, and passes it to `compose_and_send`.
It returns `None`. -/
def ci_status (BASE_DIR : String) (cloneEnvs : Nat → CloneEnv × CloneEnv)
    (ghEnvs : Nat → Bool × Except Exc GithubRepo) : Except Exc CiStatusRun :=
  match check_repo_sync BASE_DIR cloneEnvs with
  | Except.error e => Except.error e
  | Except.ok sync_list =>
    match check_repo_status ghEnvs with
    | Except.error e => Except.error e
    | Except.ok check_list =>
      match collect_results (sync_list.map RepoSyncStatus.toStatusBase) with
      | none => Except.error (Exc.typeError "can only concatenate str (not NoneType) to str")
      | some sync_results =>
        match collect_results (check_list.map GithubRepoStatus.toStatusBase) with
        | none => Except.error (Exc.typeError "can only concatenate str (not NoneType) to str")
        | some check_results =>
          Except.ok
            { messages :=
                "##### Repository Synchronization Status #####\n" ++ sync_results ++ "\n\n" ++
                  "##### Github Repository Status/Information #####\n" ++ check_results
              retval := none }

/-- Containment of `pat` in `s`, stated on the underlying character lists. -/
def strContains (s pat : String) : Prop :=
  List.IsInfix pat.data s.data

instance (s pat : String) : Decidable (strContains s pat) :=
  inferInstanceAs (Decidable (List.IsInfix pat.data s.data))


/-- Modelled from the spec: reference aggregation following the spec's words
"omits every task whose verdict is PASS and includes every other task's full
result text, in input order, each separated by exactly one blank line".  It
is compared with `collect_results`, the definition taken from the source. -/
def spec_aggregate (task_list : List StatusBase) : Option String :=
  ((task_list.filter (fun t => decide (t.verdict ≠ some Verdict.PASS))).mapM
      StatusBase.get_result).map (String.intercalate "\n\n")

/-- Two non-PASS tasks used to compare `collect_results` with the spec's
blank-line aggregation. -/
def demoTasks : List StatusBase :=
  [{ result := some "A", verdict := some Verdict.FAIL },
   { result := some "B", verdict := some Verdict.ERROR }]

/-- Collaborator behaviour of a successful clone whose tip commit is
`abc123`, at a fresh workspace path. -/
def demoCloneEnvOk : CloneEnv :=
  { pathExists := false
    rmtreeOutcome := Except.ok ()
    cloneFromOutcome := Except.ok { headCommitHexsha := "abc123" } }

/-- Collaborator behaviour of a clone attempt on which `git.Repo.clone_from`
raises `git.GitCommandError` (network error, invalid ref or auth failure). -/
def demoCloneEnvErr : CloneEnv :=
  { pathExists := false
    rmtreeOutcome := Except.ok ()
    cloneFromOutcome := Except.error (Exc.gitCommandError "Cmd git clone exited with status 128") }

/-- A hosted repository with 3 open pull requests and 5 entries in the open
issue listing, 2 of which are pull-request-flagged. -/
def demoRepo : GithubRepo :=
  { openPullsTotalCount := 3
    openIssues := [{ pull_request := true }, { pull_request := true },
                   { pull_request := false }, { pull_request := false },
                   { pull_request := false }] }

/-- Per-iteration clone behaviour for a fully successful `ci_status` run:
every clone succeeds and both tips agree. -/
def demoCloneEnvs : Nat → CloneEnv × CloneEnv :=
  fun _ => (demoCloneEnvOk, demoCloneEnvOk)

/-- Per-iteration hosted-API behaviour for a fully successful `ci_status`
run: the token is present and every query yields `demoRepo`. -/
def demoGhEnvs : Nat → Bool × Except Exc GithubRepo :=
  fun _ => (true, Except.ok demoRepo)

/-- A sync task over the first configured pair, used for concrete runs. -/
def demoSyncTask : RepoSyncStatus :=
  RepoSyncStatus.init "/github/workspace" "bluez"
    "https://git.kernel.org/pub/scm/bluetooth/bluez.git" "master"
    "https://github.com/bluez/bluez" "master"

/-- A status task over the first configured hosted repository. -/
def demoGhTask : GithubRepoStatus :=
  GithubRepoStatus.init "bluez/bluez"

theorem string_append_ne_empty (a b : String) (h : a.data ≠ []) : a ++ b ≠ "" := by
  intro hc
  have hd := congrArg String.data hc
  rw [String.data_append] at hd
  exact h (List.append_eq_nil.mp hd).1

theorem add_result_of_ne (s line : String) (h : s ≠ "") :
    add_result (some s) line = some (s ++ "\n" ++ line) := by
  simp [add_result, h]

theorem string_join_cons (a : String) (L : List String) :
    String.join (a :: L) = a ++ String.join L := by
  have aux : ∀ (M : List String) (acc : String),
      List.foldl (fun r s => r ++ s) acc M = acc ++ List.foldl (fun r s => r ++ s) "" M := by
    intro M
    induction M with
    | nil => intro acc; simp [String.append_empty]
    | cons x xs ih =>
      intro acc
      simp only [List.foldl_cons]
      rw [ih (acc ++ x), ih ("" ++ x), String.empty_append, String.append_assoc]
  simp only [String.join, List.foldl_cons]
  rw [aux L ("" ++ a), String.empty_append]

theorem strContains_self (s : String) : strContains s s :=
  ⟨[], [], by simp⟩

theorem strContains_append_left (a b pat : String) (h : strContains b pat) :
    strContains (a ++ b) pat := by
  obtain ⟨p, q, hpq⟩ := h
  exact ⟨a.data ++ p, q, by rw [String.data_append, List.append_assoc, List.append_assoc, ← List.append_assoc p, hpq]⟩

theorem strContains_append_right (a b pat : String) (h : strContains a pat) :
    strContains (a ++ b) pat := by
  obtain ⟨p, q, hpq⟩ := h
  exact ⟨p, q ++ b.data, by rw [String.data_append, ← hpq]; simp [List.append_assoc]⟩

theorem foldl_add_result (lines : List String) :
    ∀ s : String, s ≠ "" →
      List.foldl add_result (some s) lines =
        some (s ++ String.join (lines.map (fun l => "\n" ++ l))) := by
  induction lines with
  | nil => intro s _; simp [String.join, String.append_empty]
  | cons a rest ih =>
    intro s hs
    have hnl : (s ++ "\n").data ≠ [] := by
      rw [String.data_append]
      simp
    have hne : s ++ "\n" ++ a ≠ "" := string_append_ne_empty _ _ hnl
    simp only [List.foldl_cons, add_result_of_ne s a hs]
    rw [ih _ hne, List.map_cons, string_join_cons]
    simp [String.append_assoc]

theorem collect_results_go_eq (l : List StatusBase) :
    ∀ acc : String,
      (∀ t ∈ l, t.verdict ≠ some Verdict.PASS → (t.result).isSome) →
      collect_results_go acc l =
        some (acc ++ String.join
          ((l.filter (fun t => decide (t.verdict ≠ some Verdict.PASS))).map
            (fun t => "\n" ++ (t.result).getD ""))) := by
  induction l with
  | nil => intro acc _; simp [collect_results_go, String.join, String.append_empty]
  | cons task rest ih =>
    intro acc hall
    by_cases hv : task.verdict = some Verdict.PASS
    · have hcond : ¬ (task.verdict ≠ some Verdict.PASS) := by simp [hv]
      simp only [collect_results_go, if_neg hcond, List.filter_cons,
        decide_eq_true_eq]
      exact ih acc (fun t ht h => hall t (List.mem_cons_of_mem _ ht) h)
    · obtain ⟨r, hr⟩ := Option.isSome_iff_exists.mp
        (hall task (List.mem_cons_self _ _) hv)
      simp only [collect_results_go, if_pos hv, StatusBase.get_result, hr]
      rw [ih _ (fun t ht h => hall t (List.mem_cons_of_mem _ ht) h)]
      simp only [List.filter_cons, decide_eq_true_eq]
      rw [if_pos hv, List.map_cons, string_join_cons, hr]
      simp [String.append_assoc]

theorem collect_results_go_append (l1 l2 : List StatusBase) :
    ∀ acc : String,
      collect_results_go acc (l1 ++ l2) =
        (collect_results_go acc l1).bind (fun m => collect_results_go m l2) := by
  induction l1 with
  | nil => intro acc; simp [collect_results_go]
  | cons task rest ih =>
    intro acc
    by_cases hv : task.verdict = some Verdict.PASS
    · have hcond : ¬ (task.verdict ≠ some Verdict.PASS) := by simp [hv]
      simp only [List.cons_append, collect_results_go, if_neg hcond]
      exact ih acc
    · simp only [List.cons_append, collect_results_go, if_pos hv]
      cases task.get_result with
      | none => simp
      | some r => exact ih (acc ++ "\n" ++ r)

theorem ci_status_retval_none (B : String) (cE : Nat → CloneEnv × CloneEnv)
    (gE : Nat → Bool × Except Exc GithubRepo) (run : CiStatusRun)
    (h : ci_status B cE gE = Except.ok run) : run.retval = none := by
  unfold ci_status at h
  split at h
  · cases h
  · split at h
    · cases h
    · split at h
      · cases h
      · split at h
        · cases h
        · cases h
          rfl

theorem append_newline_data_ne (a : String) : (a ++ "\n").data ≠ [] := by
  rw [String.data_append]
  intro hc
  exact absurd (List.append_eq_nil.mp hc).2 (by decide)

theorem add_line_ne_empty (a b : String) : a ++ "\n" ++ b ≠ "" :=
  string_append_ne_empty _ _ (append_newline_data_ne a)

/-- Reduction of `RepoSyncStatus.check` when both clones return a repo. -/
theorem check_both_ok (t : RepoSyncStatus) (srcEnv destEnv : CloneEnv) (rs rd : Repo)
    (hs : git_clone_repo srcEnv true = Except.ok (some rs))
    (hd : git_clone_repo destEnv true = Except.ok (some rd)) :
    t.check srcEnv destEnv =
      if rs.headCommitHexsha ≠ rd.headCommitHexsha then
        (Except.ok (-1),
         { t with
             result := add_result (add_result (add_result t.result
               ("   SRC HEAD:  " ++ rs.headCommitHexsha)) ("   DEST HEAD: " ++ rd.headCommitHexsha))
               "   Result: Fail (SHA mismatch)"
             verdict := some Verdict.FAIL })
      else
        (Except.ok 0,
         { t with
             result := add_result (add_result (add_result t.result
               ("   SRC HEAD:  " ++ rs.headCommitHexsha)) ("   DEST HEAD: " ++ rd.headCommitHexsha))
               "   Result: Pass" }) := by
  simp only [RepoSyncStatus.check, hs, hd]

/-- Reduction of `GithubRepoStatus.check` when `github_init` yields a repo. -/
theorem gh_check_ok (t : GithubRepoStatus) (tok : Bool) (getRepo : Except Exc GithubRepo)
    (r : GithubRepo) (h : github_init tok getRepo = Except.ok (some r)) :
    t.check tok getRepo =
      (Except.ok 0,
       { t with
           result := add_result (add_result t.result
             ("   PRs:    " ++ toString r.openPullsTotalCount))
             ("   Issues: " ++ toString (github_get_issues_only r).length) }) := by
  simp only [GithubRepoStatus.check, h]

/-- A task with a non-PASS verdict and a defined result is appended to the
aggregate, prefixed by a line break. -/
theorem collect_results_append_included (pre : List StatusBase) (x : StatusBase) (m r : String)
    (hpre : collect_results pre = some m) (hv : x.verdict ≠ some Verdict.PASS)
    (hr : x.result = some r) :
    collect_results (pre ++ [x]) = some (m ++ "\n" ++ r) := by
  rw [collect_results] at hpre ⊢
  rw [collect_results_go_append pre [x] "", hpre]
  simp only [Option.some_bind]
  simp only [collect_results_go, if_pos hv, StatusBase.get_result, hr]

/-- Claim C1, counterexample: on two non-PASS tasks with results "A" and "B",
`collect_results` produces "\nA\nB" — each included result is preceded by a
single line break — while aggregation with consecutive results separated by
exactly one blank line (`spec_aggregate`) would produce "A\n\nB"; the two
disagree, so the claim as stated is false at this input. -/
theorem c1_blank_line_counterexample :
    collect_results demoTasks = some "\nA\nB" ∧
    spec_aggregate demoTasks = some "A\n\nB" ∧
    collect_results demoTasks ≠ spec_aggregate demoTasks := by
  decide

/-- Claim C1, amended: `collect_results []` is empty text, and on any list
whose non-PASS tasks have defined results it omits every PASS task and
appends, for every other task in input order, one line break followed by
that task's full result text (so consecutive included results are separated
by exactly one line break, not a blank line). -/
theorem c1_collect_results_amended (l : List StatusBase)
    (h : ∀ t ∈ l, t.verdict ≠ some Verdict.PASS → (t.result).isSome) :
    collect_results ([] : List StatusBase) = some "" ∧
    collect_results l =
      some (String.join ((l.filter (fun t => decide (t.verdict ≠ some Verdict.PASS))).map
        (fun t => "\n" ++ (t.result).getD ""))) := by
  refine ⟨rfl, ?_⟩
  rw [collect_results, collect_results_go_eq l "" h, String.empty_append]

theorem c1_collect_results_amended_witness :
    collect_results demoTasks =
      some (String.join ((demoTasks.filter (fun t => decide (t.verdict ≠ some Verdict.PASS))).map
        (fun t => "\n" ++ (t.result).getD ""))) :=
  (c1_collect_results_amended demoTasks (by decide)).2

/-- Claim C2: evaluation at a failing input.  When `git.Repo.clone_from`
raises on the source clone, the exception propagates out of
`RepoSyncStatus.check` with the task state unchanged — the verdict is not
set to ERROR and no descriptive result line is added; likewise a missing
GITHUB_TOKEN makes `GithubRepoStatus.check` propagate a KeyError.  This
contradicts the claim that no exception propagates out of `check()`. -/
theorem c2_check_exception_escapes :
    (demoSyncTask.check demoCloneEnvErr demoCloneEnvOk).1 =
      Except.error (Exc.gitCommandError "Cmd git clone exited with status 128") ∧
    (demoSyncTask.check demoCloneEnvErr demoCloneEnvOk).2 = demoSyncTask ∧
    (demoSyncTask.check demoCloneEnvErr demoCloneEnvOk).2.verdict ≠ some Verdict.ERROR ∧
    (demoGhTask.check false (Except.ok demoRepo)).1 =
      Except.error (Exc.keyError "GITHUB_TOKEN") ∧
    (demoGhTask.check false (Except.ok demoRepo)).2.verdict ≠ some Verdict.ERROR := by
  decide

/-- Claim C4: evaluation at a failing input.  A failing source fetch raises
`git.GitCommandError`, which `check` propagates: the destination fetch is
indeed never attempted (the outcome is independent of the destination
environment), but the verdict stays PASS instead of being set to ERROR and
the result never contains "Clone src repo failed". -/
theorem c4_src_fetch_failure :
    ∀ destEnv destEnv' : CloneEnv,
      demoSyncTask.check demoCloneEnvErr destEnv = demoSyncTask.check demoCloneEnvErr destEnv' ∧
      (demoSyncTask.check demoCloneEnvErr destEnv).1 =
        Except.error (Exc.gitCommandError "Cmd git clone exited with status 128") ∧
      (demoSyncTask.check demoCloneEnvErr destEnv).2.verdict = some Verdict.PASS ∧
      ¬ strContains (((demoSyncTask.check demoCloneEnvErr destEnv).2.result).getD "")
          "Clone src repo failed" := by
  intro d d'
  exact ⟨rfl, rfl, rfl,
    (by decide : ¬ strContains "Repo Sync: bluez" "Clone src repo failed")⟩

/-- Claim C8: both constructors set a non-empty result immediately (the
identifying header line); a sequence of `add_result` calls appends each
line prefixed by a line break (the header is always present, so no call is
the first entry); `get_result` returns the accumulated text verbatim. -/
theorem c8_result_accumulation (B n sr sb dr db repo : String) (lines : List String) :
    (RepoSyncStatus.init B n sr sb dr db).result = some ("Repo Sync: " ++ n) ∧
    ("Repo Sync: " ++ n) ≠ "" ∧
    (GithubRepoStatus.init repo).result = some ("Github Repo: " ++ repo) ∧
    ("Github Repo: " ++ repo) ≠ "" ∧
    List.foldl add_result ((RepoSyncStatus.init B n sr sb dr db).result) lines =
      some (("Repo Sync: " ++ n) ++ String.join (lines.map (fun l => "\n" ++ l))) ∧
    (∀ t : StatusBase, t.get_result = t.result) := by
  have h1 : ("Repo Sync: " ++ n) ≠ "" := string_append_ne_empty _ _ (by decide)
  have h2 : ("Github Repo: " ++ repo) ≠ "" := string_append_ne_empty _ _ (by decide)
  exact ⟨rfl, h1, rfl, h2, foldl_add_result lines _ h1, fun t => rfl⟩

/-- Claim C9, counterexample: with four distinct caller arguments, the task
built by `compare_repo_branch` does not have the field assignment the claim
predicts (a swap of the `src_branch` and `dest_branch` arguments only, with
both repo arguments landing in their own slots). -/
theorem c9_swap_counterexample :
    ¬ ((compare_repo_branch_task "/b" "SRCREPO" "DESTREPO" "SRCBRANCH" "DESTBRANCH").src_repo =
        "SRCREPO" ∧
       (compare_repo_branch_task "/b" "SRCREPO" "DESTREPO" "SRCBRANCH" "DESTBRANCH").src_branch =
        "DESTBRANCH" ∧
       (compare_repo_branch_task "/b" "SRCREPO" "DESTREPO" "SRCBRANCH" "DESTBRANCH").dest_repo =
        "DESTREPO" ∧
       (compare_repo_branch_task "/b" "SRCREPO" "DESTREPO" "SRCBRANCH" "DESTBRANCH").dest_branch =
        "SRCBRANCH") := by
  decide

/-- Claim C9, amended: `compare_repo_branch` passes
`(src_repo, dest_repo, src_branch, dest_branch)` positionally to the
constructor parameters `(name, src_repo, src_branch, dest_repo,
dest_branch)` — so the caller's `dest_repo` fills the `src_branch` field
and the caller's `src_branch` fills the `dest_repo` field, while `name`,
`src_repo` and `dest_branch` are correct; the branch/repo fields therefore
do not all equal the caller's same-named arguments. -/
theorem c9_positional_mixup (B sr dr sb db : String) :
    (compare_repo_branch_task B sr dr sb db).name = "test" ∧
    (compare_repo_branch_task B sr dr sb db).src_repo = sr ∧
    (compare_repo_branch_task B sr dr sb db).src_branch = dr ∧
    (compare_repo_branch_task B sr dr sb db).dest_repo = sb ∧
    (compare_repo_branch_task B sr dr sb db).dest_branch = db :=
  ⟨rfl, rfl, rfl, rfl, rfl⟩

theorem contains_chunk2 (r0 l1 l2 l3 pat : String) (h : strContains l1 pat) :
    strContains (r0 ++ "\n" ++ l1 ++ "\n" ++ l2 ++ "\n" ++ l3) pat := by
  apply strContains_append_right
  apply strContains_append_right
  apply strContains_append_right
  apply strContains_append_right
  exact strContains_append_left _ _ _ h

theorem contains_chunk3 (r0 l1 l2 l3 pat : String) (h : strContains l2 pat) :
    strContains (r0 ++ "\n" ++ l1 ++ "\n" ++ l2 ++ "\n" ++ l3) pat := by
  apply strContains_append_right
  apply strContains_append_right
  exact strContains_append_left _ _ _ h

theorem contains_chunk4 (r0 l1 l2 l3 pat : String) (h : strContains l3 pat) :
    strContains (r0 ++ "\n" ++ l1 ++ "\n" ++ l2 ++ "\n" ++ l3) pat :=
  strContains_append_left _ _ _ h

/-- Claim C3: when both fetches succeed, both tip SHAs are recorded in the
result regardless of whether they match; equal SHAs leave the verdict PASS
with "Result: Pass" in the result and return 0, differing SHAs set FAIL
with "SHA mismatch" in the result and return -1. -/
theorem c3_sync_check (B n sr sb dr db : String) (srcEnv destEnv : CloneEnv) (rs rd : Repo)
    (hs : git_clone_repo srcEnv true = Except.ok (some rs))
    (hd : git_clone_repo destEnv true = Except.ok (some rd)) :
    ∃ res : String,
      ((RepoSyncStatus.init B n sr sb dr db).check srcEnv destEnv).2.result = some res ∧
      strContains res rs.headCommitHexsha ∧
      strContains res rd.headCommitHexsha ∧
      (rs.headCommitHexsha = rd.headCommitHexsha →
        ((RepoSyncStatus.init B n sr sb dr db).check srcEnv destEnv).2.verdict =
          some Verdict.PASS ∧
        strContains res "Result: Pass" ∧
        ((RepoSyncStatus.init B n sr sb dr db).check srcEnv destEnv).1 = Except.ok 0) ∧
      (rs.headCommitHexsha ≠ rd.headCommitHexsha →
        ((RepoSyncStatus.init B n sr sb dr db).check srcEnv destEnv).2.verdict =
          some Verdict.FAIL ∧
        strContains res "SHA mismatch" ∧
        ((RepoSyncStatus.init B n sr sb dr db).check srcEnv destEnv).1 = Except.ok (-1)) := by
  have h0 : ("Repo Sync: " ++ n) ≠ "" := string_append_ne_empty _ _ (by decide)
  have hred := check_both_ok (RepoSyncStatus.init B n sr sb dr db) srcEnv destEnv rs rd hs hd
  rw [show (RepoSyncStatus.init B n sr sb dr db).result = some ("Repo Sync: " ++ n) from rfl,
    add_result_of_ne _ _ h0, add_result_of_ne _ _ (add_line_ne_empty _ _),
    add_result_of_ne _ _ (add_line_ne_empty _ _),
    add_result_of_ne _ _ (add_line_ne_empty _ _)] at hred
  by_cases hsha : rs.headCommitHexsha = rd.headCommitHexsha
  · rw [if_neg (not_not_intro hsha)] at hred
    refine ⟨"Repo Sync: " ++ n ++ "\n" ++ ("   SRC HEAD:  " ++ rs.headCommitHexsha) ++ "\n" ++
      ("   DEST HEAD: " ++ rd.headCommitHexsha) ++ "\n" ++ "   Result: Pass",
      ?_, ?_, ?_, ?_, ?_⟩
    · rw [hred]
    · exact contains_chunk2 _ _ _ _ _ (strContains_append_left _ _ _ (strContains_self _))
    · exact contains_chunk3 _ _ _ _ _ (strContains_append_left _ _ _ (strContains_self _))
    · intro _
      refine ⟨?_, ?_, ?_⟩
      · simp only [hred]
        rfl
      · exact contains_chunk4 _ _ _ _ _ (by decide)
      · simp only [hred]
    · intro hne
      exact absurd hsha hne
  · rw [if_pos hsha] at hred
    refine ⟨"Repo Sync: " ++ n ++ "\n" ++ ("   SRC HEAD:  " ++ rs.headCommitHexsha) ++ "\n" ++
      ("   DEST HEAD: " ++ rd.headCommitHexsha) ++ "\n" ++ "   Result: Fail (SHA mismatch)",
      ?_, ?_, ?_, ?_, ?_⟩
    · rw [hred]
    · exact contains_chunk2 _ _ _ _ _ (strContains_append_left _ _ _ (strContains_self _))
    · exact contains_chunk3 _ _ _ _ _ (strContains_append_left _ _ _ (strContains_self _))
    · intro heq
      exact absurd heq hsha
    · intro _
      refine ⟨?_, ?_, ?_⟩
      · simp only [hred]
      · exact contains_chunk4 _ _ _ _ _ (by decide)
      · simp only [hred]

theorem c3_sync_check_witness :
    git_clone_repo demoCloneEnvOk true =
      Except.ok (some { headCommitHexsha := "abc123" }) ∧
    (∃ res : String,
      (demoSyncTask.check demoCloneEnvOk demoCloneEnvOk).2.result = some res ∧
      strContains res "abc123" ∧
      (demoSyncTask.check demoCloneEnvOk demoCloneEnvOk).2.verdict = some Verdict.PASS ∧
      strContains res "Result: Pass") := by
  refine ⟨rfl, ?_⟩
  obtain ⟨res, h1, h2, h3, h4, h5⟩ := c3_sync_check "/github/workspace" "bluez"
    "https://git.kernel.org/pub/scm/bluetooth/bluez.git" "master"
    "https://github.com/bluez/bluez" "master" demoCloneEnvOk demoCloneEnvOk
    ⟨"abc123"⟩ ⟨"abc123"⟩ rfl rfl
  exact ⟨res, h1, h2, (h4 rfl).1, (h4 rfl).2.1⟩

/-- Claim C5: on any successful repo-status check the reported issue count
is the number of open issue entries whose pull-request marker is falsy; a
PR-flagged entry is never counted, and the "   Issues: " result line
carries exactly that count. -/
theorem c5_issue_count (repoName : String) (tok : Bool) (getRepo : Except Exc GithubRepo)
    (r : GithubRepo) (hinit : github_init tok getRepo = Except.ok (some r)) :
    ((GithubRepoStatus.init repoName).check tok getRepo).1 = Except.ok 0 ∧
    (github_get_issues_only r).length =
      r.openIssues.countP (fun i => !i.pull_request) ∧
    (∀ i ∈ github_get_issues_only r, i.pull_request = false) ∧
    ∃ res : String,
      ((GithubRepoStatus.init repoName).check tok getRepo).2.result = some res ∧
      strContains res
        ("   Issues: " ++ toString (r.openIssues.countP (fun i => !i.pull_request))) := by
  have hred := gh_check_ok (GithubRepoStatus.init repoName) tok getRepo r hinit
  have h0 : ("Github Repo: " ++ repoName) ≠ "" := string_append_ne_empty _ _ (by decide)
  rw [show (GithubRepoStatus.init repoName).result = some ("Github Repo: " ++ repoName) from rfl,
    add_result_of_ne _ _ h0, add_result_of_ne _ _ (add_line_ne_empty _ _)] at hred
  refine ⟨by rw [hred], ?_, ?_, ?_⟩
  · rw [github_get_issues_only, List.countP_eq_length_filter]
  · intro i hi
    have hmem := (List.mem_filter.mp hi).2
    simpa using hmem
  · refine ⟨_, by rw [hred], ?_⟩
    rw [List.countP_eq_length_filter]
    rw [show r.openIssues.filter (fun i => !i.pull_request) = github_get_issues_only r from rfl]
    exact strContains_append_left _ _ _ (strContains_self _)

theorem c5_issue_count_witness :
    github_init true (Except.ok demoRepo) = Except.ok (some demoRepo) ∧
    demoRepo.openIssues.countP (fun i => !i.pull_request) = 3 ∧
    demoRepo.openIssues.length = 5 ∧
    ((GithubRepoStatus.init "bluez/bluez").check true (Except.ok demoRepo)).1 = Except.ok 0 ∧
    (github_get_issues_only demoRepo).length =
      demoRepo.openIssues.countP (fun i => !i.pull_request) :=
  ⟨rfl, by decide, by decide,
    (c5_issue_count "bluez/bluez" true (Except.ok demoRepo) demoRepo rfl).1,
    (c5_issue_count "bluez/bluez" true (Except.ok demoRepo) demoRepo rfl).2.1⟩

/-- Claim C6: a `GithubRepoStatus` whose check completes successfully has
verdict WARNING (never PASS), and since only PASS is excluded from the
aggregation, its result text is appended to any aggregated report. -/
theorem c6_warning_always_reported (repoName : String) (tok : Bool)
    (getRepo : Except Exc GithubRepo)
    (hok : ((GithubRepoStatus.init repoName).check tok getRepo).1 = Except.ok 0) :
    ((GithubRepoStatus.init repoName).check tok getRepo).2.verdict = some Verdict.WARNING ∧
    Verdict.WARNING ≠ Verdict.PASS ∧
    (∀ (pre : List StatusBase) (m r : String),
      collect_results pre = some m →
      ((GithubRepoStatus.init repoName).check tok getRepo).2.result = some r →
      collect_results
          (pre ++ [((GithubRepoStatus.init repoName).check tok getRepo).2.toStatusBase]) =
        some (m ++ "\n" ++ r)) := by
  cases hg : github_init tok getRepo with
  | error e =>
    simp only [GithubRepoStatus.check, hg] at hok
    cases hok
  | ok o =>
    cases o with
    | none =>
      simp only [GithubRepoStatus.check, hg] at hok
      exact absurd (Except.ok.inj hok) (by decide)
    | some r' =>
      have hred := gh_check_ok (GithubRepoStatus.init repoName) tok getRepo r' hg
      rw [hred]
      refine ⟨rfl, by decide, ?_⟩
      intro pre m r hpre hres
      exact collect_results_append_included pre _ m r hpre
        (fun hc => Verdict.noConfusion (Option.some.inj hc)) hres

theorem c6_warning_always_reported_witness :
    ((GithubRepoStatus.init "bluez/bluez").check true (Except.ok demoRepo)).1 = Except.ok 0 ∧
    ((GithubRepoStatus.init "bluez/bluez").check true (Except.ok demoRepo)).2.verdict =
      some Verdict.WARNING ∧
    collect_results
        ([] ++ [((GithubRepoStatus.init "bluez/bluez").check true
          (Except.ok demoRepo)).2.toStatusBase]) =
      some ("" ++ "\n" ++ "Github Repo: bluez/bluez\n   PRs:    3\n   Issues: 3") := by
  have h := c6_warning_always_reported "bluez/bluez" true (Except.ok demoRepo) rfl
  exact ⟨rfl, h.1, h.2.2 [] "" _ rfl rfl⟩

/-- Claim C7, counterexample: on a concrete fully successful run (every
clone yields tip "abc123" on both sides, every hosted query succeeds —
every task's verdict is PASS or WARNING), `ci_status` completes but its
return value is None: there is no run in which it returns an integer exit
status, so it does not return "the composed report text together with an
overall exit status". -/
theorem c7_no_exit_status :
    (∃ run : CiStatusRun,
      ci_status "/github/workspace" demoCloneEnvs demoGhEnvs = Except.ok run) ∧
    ¬ ∃ (run : CiStatusRun) (exitStatus : Int),
        ci_status "/github/workspace" demoCloneEnvs demoGhEnvs = Except.ok run ∧
        run.retval = some exitStatus := by
  constructor
  · exact ⟨_, rfl⟩
  · rintro ⟨run, s, hok, hs⟩
    have hnone := ci_status_retval_none _ _ _ _ hok
    rw [hnone] at hs
    cases hs

/-- Claim C7, amended: `ci_status` builds its tasks from the module-level
REPO_SYNC_MAP and GITHUB_REPO_LIST, composes the report text from the two
fixed section headers and the two `collect_results` strings, hands it to
`compose_and_send`, and returns None — it provides no exit status and does
not return the report text to its caller. -/
theorem c7_ci_status_amended (B : String) (cE : Nat → CloneEnv × CloneEnv)
    (gE : Nat → Bool × Except Exc GithubRepo) (sync_list : List RepoSyncStatus)
    (check_list : List GithubRepoStatus) (m1 m2 : String)
    (h1 : check_repo_sync B cE = Except.ok sync_list)
    (h2 : check_repo_status gE = Except.ok check_list)
    (h3 : collect_results (sync_list.map RepoSyncStatus.toStatusBase) = some m1)
    (h4 : collect_results (check_list.map GithubRepoStatus.toStatusBase) = some m2) :
    ci_status B cE gE =
      Except.ok
        { messages := "##### Repository Synchronization Status #####\n" ++ m1 ++ "\n\n" ++
            "##### Github Repository Status/Information #####\n" ++ m2
          retval := none } := by
  simp only [ci_status, h1, h2, h3, h4]

theorem c7_ci_status_amended_witness :
    ∃ (sync_list : List RepoSyncStatus) (check_list : List GithubRepoStatus) (m1 m2 : String),
      check_repo_sync "/github/workspace" demoCloneEnvs = Except.ok sync_list ∧
      check_repo_status demoGhEnvs = Except.ok check_list ∧
      collect_results (sync_list.map RepoSyncStatus.toStatusBase) = some m1 ∧
      collect_results (check_list.map GithubRepoStatus.toStatusBase) = some m2 ∧
      ci_status "/github/workspace" demoCloneEnvs demoGhEnvs =
        Except.ok
          { messages := "##### Repository Synchronization Status #####\n" ++ m1 ++ "\n\n" ++
              "##### Github Repository Status/Information #####\n" ++ m2
            retval := none } :=
  ⟨_, _, _, _, rfl, rfl, rfl, rfl,
    c7_ci_status_amended "/github/workspace" demoCloneEnvs demoGhEnvs _ _ _ _ rfl rfl rfl rfl⟩

/-- Claim C10: a freshly constructed `RepoSyncStatus` carries verdict PASS
(not PENDING); the matching-SHA success path of `check` leaves the verdict
unchanged; a run aborted by an exception before any verdict assignment
leaves the whole task unchanged; and a task carrying the constructor
verdict contributes nothing to the aggregated report. -/
theorem c10_initial_verdict_pass (B n sr sb dr db : String)
    (srcEnvA destEnvA srcEnvB destEnvB : CloneEnv) (rs rd : Repo) (e : Exc) :
    (RepoSyncStatus.init B n sr sb dr db).verdict = some Verdict.PASS ∧
    Verdict.PASS ≠ Verdict.PENDING ∧
    (git_clone_repo srcEnvA true = Except.ok (some rs) →
      git_clone_repo destEnvA true = Except.ok (some rd) →
      rs.headCommitHexsha = rd.headCommitHexsha →
      ((RepoSyncStatus.init B n sr sb dr db).check srcEnvA destEnvA).2.verdict =
        (RepoSyncStatus.init B n sr sb dr db).verdict) ∧
    (git_clone_repo srcEnvB true = Except.error e →
      ((RepoSyncStatus.init B n sr sb dr db).check srcEnvB destEnvB).2 =
        RepoSyncStatus.init B n sr sb dr db) ∧
    collect_results [(RepoSyncStatus.init B n sr sb dr db).toStatusBase] = some "" := by
  refine ⟨rfl, by decide, ?_, ?_, rfl⟩
  · intro hsA hdA hsha
    have hred := check_both_ok (RepoSyncStatus.init B n sr sb dr db) srcEnvA destEnvA rs rd hsA hdA
    rw [if_neg (not_not_intro hsha)] at hred
    simp only [hred]
  · intro hsB
    simp only [RepoSyncStatus.check, hsB]

theorem c10_initial_verdict_pass_witness :
    demoSyncTask.verdict = some Verdict.PASS ∧
    (demoSyncTask.check demoCloneEnvOk demoCloneEnvOk).2.verdict = demoSyncTask.verdict ∧
    (demoSyncTask.check demoCloneEnvErr demoCloneEnvOk).2 = demoSyncTask ∧
    collect_results [demoSyncTask.toStatusBase] = some "" := by
  have h := c10_initial_verdict_pass "/github/workspace" "bluez"
    "https://git.kernel.org/pub/scm/bluetooth/bluez.git" "master"
    "https://github.com/bluez/bluez" "master" demoCloneEnvOk demoCloneEnvOk demoCloneEnvErr
    demoCloneEnvOk ⟨"abc123"⟩ ⟨"abc123"⟩
    (Exc.gitCommandError "Cmd git clone exited with status 128")
  exact ⟨h.1, h.2.2.1 rfl rfl rfl, h.2.2.2.1 rfl, h.2.2.2.2⟩
